import Mathlib

set_option autoImplicit false

/-!
Byte-level shallow embedding of the segregated-free-list allocator in
src/mm.c.  The heap is a byte-addressed memory `Nat → Nat` together with the
break pointer of the sbrk primitive.  All size_t arithmetic of the C source is
modelled on `Nat` with explicit reduction modulo `2 ^ 64` where the source can
wrap; 32-bit header words are stored as four little-endian bytes exactly as the
`GET`/`PUT` macros do.  Loops of the source (free-list walks) are modelled with
an explicit fuel argument; all bounded loops use exact structural fuel.
-/

namespace Mm

/-- Modulus of the C type size_t (64-bit). -/
def W : Nat := 2 ^ 64

/-- Constants of src/mm.c lines 54-61. -/
def WSIZE : Nat := 4

def DSIZE : Nat := 8

def CHUNKSIZE : Nat := 2112

def CLASSES : Nat := 26

def BIAS : Nat := 2

def MAX_LEVEL : Nat := 26

def MIN_BLOCK_SIZE : Nat := 16

def FIRST_BLOCK_SIZE : Nat := 1504

/-- Base address of the model heap (mem_heap_lo of the heap primitive). -/
def HEAP_BASE : Nat := 4096

/-- Truncating size_t subtraction: (a - b) mod 2^64 for a, b < 2^64. -/
def sub64 (a b : Nat) : Nat := (a + W - b % W) % W

/-- ALIGN macro, src/mm.c line 50: ((size_t)(p) + 7) & ~0x7 in size_t arithmetic. -/
def ALIGN (p : Nat) : Nat := ((p + 7) % W) &&& (W - 8)

/-- NEO_ALIGN macro, src/mm.c line 51: (p<5)?12:(ALIGN(p-4)+4). -/
def NEO_ALIGN (p : Nat) : Nat := if p < 5 then 12 else (ALIGN (p - 4) + 4) % W

/-- Block size computed by malloc and realloc: (NEO_ALIGN(size))+WSIZE,
src/mm.c lines 316 and 361. -/
def block_size (n : Nat) : Nat := (NEO_ALIGN n + WSIZE) % W

/-- Allocator state: byte memory, break pointer, sbrk limit, the two global
pointers of mm.c, and a fault flag recording any store outside the heap
(undefined behaviour in the C source, e.g. a store through a null pointer). -/
structure MMState where
  mem : Nat → Nat
  brk : Nat
  maxAddr : Nat
  free_list : Nat
  heap_listp : Nat
  fault : Bool

/-- Store one byte.  A store outside [HEAP_BASE, brk) is undefined behaviour in
the source; the model records it in the fault flag and leaves memory unchanged. -/
def writeByte (st : MMState) (a v : Nat) : MMState :=
  if HEAP_BASE ≤ a ∧ a < st.brk then
    { st with mem := fun x => if x = a then v % 256 else st.mem x }
  else
    { st with fault := true }

/-- Read a 32-bit little-endian word (the GET macro, src/mm.c line 70). -/
def read32 (st : MMState) (a : Nat) : Nat :=
  st.mem a + 256 * st.mem (a + 1) + 65536 * st.mem (a + 2) + 16777216 * st.mem (a + 3)

/-- Write a 32-bit little-endian word (the PUT macro, src/mm.c line 71); the
value is truncated to 32 bits exactly as the cast to unsigned int does. -/
def write32 (st : MMState) (a v : Nat) : MMState :=
  writeByte (writeByte (writeByte (writeByte st a (v % 256))
    (a + 1) (v / 256 % 256)) (a + 2) (v / 65536 % 256)) (a + 3) (v / 16777216 % 256)

/-- Read a 64-bit little-endian word (a char* value, stored in a free block). -/
def read64 (st : MMState) (a : Nat) : Nat :=
  read32 st a + 4294967296 * read32 st (a + 4)

/-- Write a 64-bit little-endian word (a char* value). -/
def write64 (st : MMState) (a v : Nat) : MMState :=
  write32 (write32 st a (v % 4294967296)) (a + 4) (v / 4294967296)

/-- GET macro, src/mm.c line 70. -/
def GET (st : MMState) (p : Nat) : Nat := read32 st p

/-- PUT macro, src/mm.c line 71. -/
def PUT (st : MMState) (p v : Nat) : MMState := write32 st p v

/-- PACK macro, src/mm.c line 67. -/
def PACK (size alloc : Nat) : Nat := size ||| alloc

/-- GET_SIZE macro, src/mm.c line 74 (on a 32-bit word ~0x7 is 0xFFFFFFF8). -/
def GET_SIZE (st : MMState) (p : Nat) : Nat := GET st p &&& 0xFFFFFFF8

/-- GET_ALLOC macro, src/mm.c line 75. -/
def GET_ALLOC (st : MMState) (p : Nat) : Nat := GET st p &&& 0x1

/-- GET_PREV_ALLOC macro, src/mm.c line 76. -/
def GET_PREV_ALLOC (st : MMState) (p : Nat) : Nat := GET st p &&& 0x2

/-- HDRP macro, src/mm.c line 79. -/
def HDRP (bp : Nat) : Nat := bp - WSIZE

/-- FTRP macro, src/mm.c line 80. -/
def FTRP (st : MMState) (bp : Nat) : Nat := bp + GET_SIZE st (HDRP bp) - DSIZE

/-- NEXT_BLKP macro, src/mm.c line 83. -/
def NEXT_BLKP (st : MMState) (bp : Nat) : Nat := bp + GET_SIZE st (bp - WSIZE)

/-- PREV_BLKP macro, src/mm.c line 84. -/
def PREV_BLKP (st : MMState) (bp : Nat) : Nat := bp - GET_SIZE st (bp - DSIZE)

/-- Modelled from the spec: the sbrk-style heap primitive (memlib, an external
collaborator of the core, is not under src/).  It extends the heap by the
requested byte count and returns the old break, or fails without any effect
when the request would exceed the heap limit. -/
def mem_sbrk (st : MMState) (incr : Nat) : MMState × Option Nat :=
  if st.maxAddr < st.brk + incr then (st, none)
  else ({ st with brk := st.brk + incr }, some st.brk)

/-- set_prev_alloc, src/mm.c lines 250-261. -/
def set_prev_alloc (st : MMState) (bp : Nat) (alloc : Nat) : MMState :=
  let st1 := write32 st (HDRP bp) ((read32 st (HDRP bp) &&& 0xFFFFFFFD) ||| alloc)
  if GET_ALLOC st1 (HDRP bp) = 0 then
    let footer := FTRP st1 bp
    write32 st1 footer ((read32 st1 footer &&& 0xFFFFFFFD) ||| alloc)
  else st1

/-- set_block, src/mm.c lines 120-125. -/
def set_block (st : MMState) (bp size alloc : Nat) : MMState :=
  let prev_alloc := GET st (HDRP bp) &&& 0x2
  let st1 := PUT st (HDRP bp) (PACK size alloc)
  let st2 := if alloc = 0 then PUT st1 (FTRP st1 bp) (PACK size alloc) else st1
  set_prev_alloc st2 bp prev_alloc

/-- Loop of get_class, src/mm.c line 130: while((1<<(i+3))<size && i<MAX_LEVEL) ++i.
The loop body runs at most 24 times starting from i = BIAS, so fuel 26 is exact. -/
def gcGo (size : Nat) : Nat → Nat → Nat
  | 0, i => i
  | f + 1, i => if 2 ^ (i + 3) < size ∧ i < MAX_LEVEL then gcGo size f (i + 1) else i

/-- get_class, src/mm.c lines 128-133. -/
def get_class (size : Nat) : Nat := gcGo size 26 BIAS - BIAS

/-- Walk of remove_from_free_list, src/mm.c line 141, with the defensive
return on a null tail or the splice at the end (lines 144-149): the while loop
stops when tmp is bp or tmp is null, and a null tmp returns without splicing. -/
def rmWalk (bp : Nat) : Nat → MMState → Nat → MMState
  | 0, st, _ => st
  | f + 1, st, ptr =>
    let tmp := read64 st ptr
    if tmp = 0 then st
    else if tmp = bp then write64 st ptr (read64 st bp)
    else rmWalk bp f st tmp

/-- remove_from_free_list, src/mm.c lines 136-150. -/
def remove_from_free_list (fuel : Nat) (st : MMState) (bp : Nat) : MMState :=
  let p := get_class (GET_SIZE st (HDRP bp))
  rmWalk bp fuel st (st.free_list + DSIZE * p)

/-- add_to_free_list, src/mm.c lines 153-165. -/
def add_to_free_list (st : MMState) (bp : Nat) : MMState :=
  if GET_ALLOC st (HDRP bp) ≠ 0 then st
  else
    let p := get_class (GET_SIZE st (HDRP bp))
    let ptr := st.free_list + p * DSIZE
    let st1 := write64 st bp (read64 st ptr)
    write64 st1 ptr bp

/-- coalesce, src/mm.c lines 190-214. -/
def coalesce (fuel : Nat) (st : MMState) (bp : Nat) : MMState × Nat :=
  let nbp := NEXT_BLKP st bp
  let st1 :=
    if GET_ALLOC st (HDRP nbp) = 0 then
      let stA := if MIN_BLOCK_SIZE ≤ GET_SIZE st (HDRP nbp) then
                   remove_from_free_list fuel st nbp else st
      set_block stA bp (GET_SIZE stA (HDRP bp) + GET_SIZE stA (HDRP nbp)) 0
    else st
  let res :=
    if GET_PREV_ALLOC st1 (HDRP bp) = 0 then
      let pbp := PREV_BLKP st1 bp
      let stB := if MIN_BLOCK_SIZE ≤ GET_SIZE st1 (HDRP pbp) then
                   remove_from_free_list fuel st1 pbp else st1
      (set_block stB pbp (GET_SIZE stB (HDRP pbp) + GET_SIZE stB (HDRP bp)) 0, pbp)
    else (st1, bp)
  let st2 := set_prev_alloc res.1 res.2 2
  let st3 := set_prev_alloc st2 (NEXT_BLKP st2 res.2) 0
  (st3, res.2)

/-- split_block, src/mm.c lines 169-187.  remaining_size is a size_t difference. -/
def split_block (fuel : Nat) (st : MMState) (bp size : Nat) : MMState :=
  let old_size := GET_SIZE st (HDRP bp)
  let st1 := if GET_ALLOC st (HDRP bp) = 0 then remove_from_free_list fuel st bp else st
  let remaining_size := sub64 old_size size
  let st2 := set_block st1 bp size 1
  if remaining_size = 0 then set_prev_alloc st2 (NEXT_BLKP st2 bp) 2
  else
    let nbp := NEXT_BLKP st2 bp
    let st3 := set_block st2 nbp remaining_size 0
    let st4 := set_prev_alloc st3 nbp 2
    let r := coalesce fuel st4 nbp
    let st5 := set_prev_alloc r.1 (NEXT_BLKP r.1 r.2) 0
    if MIN_BLOCK_SIZE ≤ GET_SIZE st5 (HDRP r.2) then add_to_free_list st5 r.2 else st5

/-- Inner while loop of find_fit, src/mm.c lines 109-114. -/
def ffWalk (st : MMState) (size : Nat) : Nat → Nat → Nat
  | 0, _ => 0
  | f + 1, bp =>
    if bp = 0 then 0
    else if size ≤ GET_SIZE st (HDRP bp) then bp
    else ffWalk st size f (read64 st bp)

/-- Outer for loop of find_fit over the classes, src/mm.c lines 107-115.
The class counter runs from get_class(size) to CLASSES, so 27 steps are exact. -/
def ffGo (fuel : Nat) (st : MMState) (size : Nat) : Nat → Nat → Nat
  | 0, _ => 0
  | c + 1, j =>
    if j < CLASSES then
      let bp := ffWalk st size fuel (read64 st (st.free_list + j * DSIZE))
      if bp = 0 then ffGo fuel st size c (j + 1) else bp
    else 0

/-- find_fit, src/mm.c lines 106-117.  Returns the payload pointer or 0 (NULL). -/
def find_fit (fuel : Nat) (st : MMState) (size : Nat) : Nat :=
  ffGo fuel st size 27 (get_class size)

/-- extend_heap, src/mm.c lines 217-247.  The middle component of the attempt
triple is the block pointer handed back by mem_sbrk (0 encodes NULL). -/
def extend_heap (fuel : Nat) (st : MMState) (e_size : Nat) : MMState × Nat :=
  let lbp := st.brk - 1 + 1 - WSIZE
  let palloc := GET_PREV_ALLOC st lbp
  let e2 := ALIGN e_size
  let attempt :=
    if CHUNKSIZE ≤ e2 then
      match mem_sbrk st e2 with
      | (st1, none) => (st1, 0, 0)
      | (st1, some bp) => (st1, bp, e2)
    else
      match mem_sbrk st CHUNKSIZE with
      | (st1, none) =>
        match mem_sbrk st1 e2 with
        | (st2, none) => (st2, 0, 0)
        | (st2, some bp) => (st2, bp, e2)
      | (st1, some bp) => (st1, bp, CHUNKSIZE)
  let st1 := attempt.1
  let bp := attempt.2.1
  let new_size := attempt.2.2
  if bp = 0 then (st1, 0)
  else
    let st2 := set_block st1 bp new_size 0
    let st3 := set_prev_alloc st2 bp palloc
    let st4 := PUT st3 (HDRP (NEXT_BLKP st3 bp)) 1
    let r := coalesce fuel st4 bp
    let st5 := if MIN_BLOCK_SIZE ≤ GET_SIZE r.1 (HDRP r.2) then
                 add_to_free_list r.1 r.2 else r.1
    (st5, r.2)

/-- Loop of mm_init zeroing the CLASSES free-list heads, src/mm.c lines 284-287. -/
def zeroHeads (fl : Nat) : Nat → Nat → MMState → MMState
  | 0, _, st => st
  | k + 1, i, st =>
    let st1 := PUT st (fl + DSIZE * i) 0
    let st2 := PUT st1 (fl + DSIZE * i + WSIZE) 0
    zeroHeads fl k (i + 1) st2

/-- mm_init, src/mm.c lines 281-305.  The Int is the C return value (0 or -1).
The initial memory contents m0 model the unspecified bytes handed out by the
heap primitive; maxHeap is the sbrk limit. -/
def mm_init (m0 : Nat → Nat) (maxHeap : Nat) : MMState × Int :=
  let st0 : MMState :=
    { mem := m0, brk := HEAP_BASE, maxAddr := HEAP_BASE + maxHeap,
      free_list := 0, heap_listp := 0, fault := false }
  match mem_sbrk st0 (CLASSES * DSIZE) with
  | (st1, none) => (st1, -1)
  | (st1, some fl) =>
    let st2 := { st1 with free_list := fl }
    let st3 := zeroHeads fl CLASSES 0 st2
    match mem_sbrk st3 (2 * DSIZE + FIRST_BLOCK_SIZE) with
    | (st4, none) => (st4, -1)
    | (st4, some hl0) =>
      let hl := hl0 + DSIZE
      let st5 := { st4 with heap_listp := hl }
      let st6 := PUT st5 (hl - WSIZE) 9
      let st7 := PUT st6 hl 9
      let st8 := set_block st7 (hl + DSIZE) FIRST_BLOCK_SIZE 0
      let st9 := set_prev_alloc st8 (hl + DSIZE) 2
      let st10 := add_to_free_list st9 (hl + DSIZE)
      let st11 := PUT st10 (hl + WSIZE + FIRST_BLOCK_SIZE) 1
      (st11, 0)

/-- malloc, src/mm.c lines 310-332.  Returns the new state and the payload
pointer (0 encodes NULL). -/
def malloc (fuel : Nat) (st : MMState) (size : Nat) : MMState × Nat :=
  if size = 0 then (st, 0)
  else
    let bs := block_size size
    let bp := find_fit fuel st bs
    if bp ≠ 0 then (split_block fuel st bp bs, bp)
    else
      let r := extend_heap fuel st bs
      if r.2 ≠ 0 then (split_block fuel r.1 r.2 bs, r.2) else (r.1, 0)

/-- free, src/mm.c lines 337-347. -/
def free (fuel : Nat) (st : MMState) (ptr : Nat) : MMState :=
  if ptr = 0 then st
  else if GET_ALLOC st (HDRP ptr) = 0 then st
  else
    let st1 := set_block st ptr (GET_SIZE st (HDRP ptr)) 0
    let r := coalesce fuel st1 ptr
    add_to_free_list r.1 r.2

/-- Byte-by-byte ascending copy (the libc memcpy as used by realloc). -/
def memcpy (st : MMState) (dst src : Nat) : Nat → MMState
  | 0 => st
  | n + 1 => memcpy (writeByte st dst (st.mem src)) (dst + 1) (src + 1) n

/-- Byte-by-byte ascending fill (the libc memset as used by calloc). -/
def memset (st : MMState) (p v : Nat) : Nat → MMState
  | 0 => st
  | n + 1 => memset (writeByte st p v) (p + 1) v n

/-- realloc, src/mm.c lines 352-412.  prev_block and prev_size are pure header
reads, so hoisting them out of the prev_alloc==0 branch (where the source
declares them) does not change any behaviour. -/
def realloc (fuel : Nat) (st : MMState) (oldptr size : Nat) : MMState × Nat :=
  if oldptr = 0 then malloc fuel st size
  else if size = 0 then (free fuel st oldptr, 0)
  else
    let bs := block_size size
    let old_size := GET_SIZE st (HDRP oldptr)
    let next_block := NEXT_BLKP st oldptr
    let next_size := GET_SIZE st (HDRP next_block)
    let write_size := min old_size bs
    let next_alloc := GET_ALLOC st (HDRP next_block)
    let prev_alloc := GET_PREV_ALLOC st (HDRP oldptr)
    let prev_block := PREV_BLKP st oldptr
    let prev_size := GET_SIZE st (HDRP prev_block)
    if prev_alloc = 0 ∧ bs ≤ old_size + prev_size then
      let st1 := if MIN_BLOCK_SIZE ≤ prev_size then
                   remove_from_free_list fuel st prev_block else st
      let st2 := memcpy st1 prev_block oldptr (sub64 write_size WSIZE)
      let st3 := set_block st2 prev_block (old_size + prev_size) 1
      (split_block fuel st3 prev_block bs, prev_block)
    else if prev_alloc = 0 ∧ next_alloc = 0 ∧ bs ≤ old_size + prev_size + next_size then
      let st1 := if MIN_BLOCK_SIZE ≤ prev_size then
                   remove_from_free_list fuel st prev_block else st
      let st2 := if MIN_BLOCK_SIZE ≤ next_size then
                   remove_from_free_list fuel st1 next_block else st1
      let st3 := memcpy st2 prev_block oldptr (sub64 write_size WSIZE)
      let st4 := set_block st3 prev_block (old_size + prev_size + next_size) 1
      (split_block fuel st4 prev_block bs, prev_block)
    else if bs ≤ old_size then
      (split_block fuel st oldptr bs, oldptr)
    else if next_alloc = 0 ∧ bs ≤ old_size + next_size then
      let st1 := if MIN_BLOCK_SIZE ≤ next_size then
                   remove_from_free_list fuel st next_block else st
      let st2 := set_block st1 oldptr (old_size + next_size) 1
      (split_block fuel st2 oldptr bs, oldptr)
    else
      let tmp := read64 st oldptr
      let tmp1 := read32 st (FTRP st oldptr)
      let st1 := free fuel st oldptr
      let r := malloc fuel st1 size
      if r.2 ≠ 0 then
        let st2 := write64 r.1 r.2 tmp
        let st3 := write32 st2 (r.2 + old_size - DSIZE) tmp1
        let st4 := memcpy st3 (r.2 + DSIZE) (oldptr + DSIZE) (sub64 old_size (2 * DSIZE))
        (st4, r.2)
      else (r.1, 0)

/-- calloc, src/mm.c lines 419-424.  nmemb*size is a size_t product, reduced
modulo 2^64; the result of malloc is passed to memset without a null check,
exactly as in the source. -/
def calloc (fuel : Nat) (st : MMState) (nmemb size : Nat) : MMState × Nat :=
  if nmemb = 0 ∨ size = 0 then (st, 0)
  else
    let sz := nmemb * size % W
    let r := malloc fuel st sz
    (memset r.1 r.2 0 sz, r.2)

end Mm

namespace Mm

/-! Spec-side definitions and concrete heap traces used by the theorems. -/

/-- Spec-side rounding up to the next multiple of 8 (align8 of the spec). -/
def align8Spec (x : Nat) : Nat := 8 * ((x + 7) / 8)

/-- Existence of a size class bound, needed to define the spec-side class map. -/
def exists_class (s : Nat) : ∃ i, s ≤ 2 ^ (i + 5) :=
  ⟨s, le_trans (Nat.le_of_lt (Nat.lt_two_pow s)) (Nat.pow_le_pow_right (by norm_num) (by omega))⟩

/-- Spec-side class map: the least i such that 2^(i+5) is at least s. -/
def specClass (s : Nat) : Nat := Nat.find (exists_class s)

/-- Fuel for the free-list walks; far larger than any list in the traces below. -/
def FUEL : Nat := 1000

/-- Initial memory handed out by the heap primitive: an arbitrary nonzero byte
pattern, so that unwritten bytes are observably distinct from zeroed bytes. -/
def initMem : Nat → Nat := fun _ => 170

/-- Heap after a successful init with a 20000-byte sbrk limit. -/
def heap0 : MMState := (mm_init initMem 20000).1

/-- heap0 after a = malloc(100); the payload pointer a is 4320. -/
def heapA : MMState := (malloc FUEL heap0 100).1

/-- heapA after b = malloc(100); the payload pointer b is 4424. -/
def heapAB : MMState := (malloc FUEL heapA 100).1

/-- heapAB after free(a): block 4320 is free and listed, block 4424 is
allocated and its prev_alloc flag is clear. -/
def heapF : MMState := free FUEL heapAB 4320

/-- Heap with sbrk limit 1728 (exactly the initial footprint) after
malloc(1496), which consumes the whole initial free block: every further
allocation must extend the heap and fails. -/
def heap7 : MMState := (malloc FUEL (mm_init initMem 1728).1 1496).1

/-! Arithmetic helper lemmas about the bit-level size computations. -/

theorem landMask (y : Nat) (h : y < W) : y &&& (W - 8) = y - y % 8 := by
  have hsub : y - y % 8 = (y >>> 3) <<< 3 := by
    rw [Nat.shiftRight_eq_div_pow, Nat.shiftLeft_eq]
    have h8 : (2:Nat) ^ 3 = 8 := by norm_num
    rw [h8]; omega
  have hmask : W - 8 = (2 ^ 61 - 1) <<< 3 := by norm_num [Nat.shiftLeft_eq, W]
  rw [hsub, hmask]
  apply Nat.eq_of_testBit_eq
  intro i
  rw [Nat.testBit_and, Nat.testBit_shiftLeft, Nat.testBit_shiftLeft, Nat.testBit_shiftRight,
    Nat.testBit_two_pow_sub_one]
  rcases Nat.lt_or_ge i 3 with h3 | h3
  · simp [Nat.not_le.mpr h3]
  · have hd : decide (i ≥ 3) = true := by simp [h3]
    rw [hd]
    simp only [Bool.true_and]
    have h35 : 3 + (i - 3) = i := by omega
    rw [h35]
    rcases Nat.lt_or_ge i 64 with h64 | h64
    · have h61 : i - 3 < 61 := by omega
      simp [h61]
    · have hfalse : y.testBit i = false := by
        apply Nat.testBit_lt_two_pow
        exact lt_of_lt_of_le h (Nat.pow_le_pow_right (by norm_num) h64)
      simp [hfalse]

theorem ALIGN_eq (x : Nat) : ALIGN x = (x + 7) % W - ((x + 7) % W) % 8 := by
  unfold ALIGN
  exact landMask ((x + 7) % W) (Nat.mod_lt _ (by norm_num [W]))

theorem hW64 : W = 18446744073709551616 := by norm_num [W]

theorem block_size_mod (n : Nat) (h : n < W) :
    block_size n = align8Spec (max n 5 + 4) % W := by
  unfold block_size NEO_ALIGN align8Spec WSIZE
  by_cases h5 : n < 5
  · rw [if_pos h5]
    have hmax : max n 5 = 5 := by omega
    rw [hmax]
  · rw [if_neg h5]
    rw [ALIGN_eq]
    have hmax : max n 5 = n := by omega
    rw [hmax, hW64] at *
    omega

theorem block_size_eq (n : Nat) (h : n ≤ W - 12) :
    block_size n = align8Spec (max n 5 + 4) := by
  unfold block_size NEO_ALIGN align8Spec WSIZE
  by_cases h5 : n < 5
  · rw [if_pos h5]
    have hmax : max n 5 = 5 := by omega
    rw [hmax]
    norm_num [hW64]
  · rw [if_neg h5]
    rw [ALIGN_eq]
    have hmax : max n 5 = n := by omega
    rw [hmax, hW64] at *
    omega

theorem block_size_ge (n : Nat) (h : n ≤ W - 12) : 16 ≤ block_size n := by
  rw [block_size_eq n h]
  unfold align8Spec
  omega

theorem block_size_mul8 (n : Nat) (h : n ≤ W - 12) : block_size n % 8 = 0 := by
  rw [block_size_eq n h]
  unfold align8Spec
  omega

theorem block_size_mono (m n : Nat) (hmn : m ≤ n) (h : n ≤ W - 12) :
    block_size m ≤ block_size n := by
  rw [block_size_eq m (le_trans hmn h), block_size_eq n h]
  unfold align8Spec
  omega

/-! Characterization of the get_class loop. -/

theorem gcStop (s : Nat) : ∀ f i, specClass s + 2 ≤ i → gcGo s f i = i := by
  intro f i hi
  cases f with
  | zero => rfl
  | succ f =>
    have hle : s ≤ 2 ^ (i + 3) := by
      have h1 : s ≤ 2 ^ (specClass s + 5) := Nat.find_spec (exists_class s)
      exact le_trans h1 (Nat.pow_le_pow_right (by norm_num) (by omega))
    have hne : ¬ (2 ^ (i + 3) < s ∧ i < MAX_LEVEL) := by
      intro hc
      exact absurd hle (Nat.not_le.mpr hc.1)
    simp only [gcGo, if_neg hne]

theorem gcRun (s : Nat) : ∀ f i, 2 ≤ i → i ≤ 26 → i < specClass s + 2 → 26 - i ≤ f →
    gcGo s f i = min 26 (specClass s + 2) := by
  intro f
  induction f with
  | zero =>
    intro i h2 h26 hlt hf
    have hi : i = 26 := by omega
    subst hi
    have hm : min 26 (specClass s + 2) = 26 := by omega
    rw [hm]
    rfl
  | succ f ih =>
    intro i h2 h26 hlt hf
    have hcond : 2 ^ (i + 3) < s := by
      have hm := Nat.find_min (exists_class s) (show i - 2 < specClass s by omega)
      have he : i - 2 + 5 = i + 3 := by omega
      rw [he] at hm
      omega
    by_cases h26lt : i < 26
    · have hstep : gcGo s (f + 1) i = gcGo s f (i + 1) := by
        simp only [gcGo, MAX_LEVEL]
        rw [if_pos ⟨hcond, h26lt⟩]
      rw [hstep]
      by_cases hnext : i + 1 < specClass s + 2
      · exact ih (i + 1) (by omega) (by omega) hnext (by omega)
      · have heq : i + 1 = specClass s + 2 := by omega
        rw [gcStop s f (i + 1) (by omega)]
        omega
    · have hi : i = 26 := by omega
      subst hi
      have hstep : gcGo s (f + 1) 26 = 26 := by
        simp only [gcGo, MAX_LEVEL]
        rw [if_neg (fun hc => absurd hc.2 (lt_irrefl 26))]
      rw [hstep]
      omega

theorem get_class_eq (s : Nat) : get_class s = min 24 (specClass s) := by
  unfold get_class BIAS
  by_cases h : specClass s + 2 ≤ 2
  · rw [gcStop s 26 2 h]
    omega
  · rw [gcRun s 26 2 (le_refl 2) (by norm_num) (by omega) (by norm_num)]
    omega

theorem specClass_pow30 : specClass (2 ^ 30) = 25 := by
  unfold specClass
  rw [Nat.find_eq_iff]
  constructor
  · norm_num
  · intro m hm hc
    have hlt : (2:Nat) ^ (m + 5) < 2 ^ 30 := Nat.pow_lt_pow_right (by norm_num) (by omega)
    omega

/-! Helper lemmas for the branch structure of realloc, free and calloc. -/

theorem realloc_inplace (fuel : Nat) (st : MMState) (p n : Nat)
    (h1 : p ≠ 0) (h2 : n ≠ 0) (h3 : GET_PREV_ALLOC st (HDRP p) ≠ 0)
    (h4 : block_size n ≤ GET_SIZE st (HDRP p)) :
    realloc fuel st p n = (split_block fuel st p (block_size n), p) := by
  unfold realloc
  rw [if_neg h1, if_neg h2]
  simp only []
  rw [if_neg (fun hc => h3 hc.1), if_neg (fun hc => h3 hc.1), if_pos h4]

theorem calloc_mod (fuel : Nat) (st : MMState) (k n : Nat) (hk : 0 < k) (hn : 0 < n) :
    calloc fuel st k n = calloc fuel st 1 (k * n % W) := by
  unfold calloc
  rw [if_neg (by omega : ¬(k = 0 ∨ n = 0))]
  by_cases hm : k * n % W = 0
  · rw [if_pos (Or.inr hm), hm]
    have hmalloc : malloc fuel st 0 = (st, 0) := rfl
    simp only [hmalloc]
    rfl
  · rw [if_neg (by omega : ¬(1 = 0 ∨ k * n % W = 0))]
    have hone : 1 * (k * n % W) % W = k * n % W := by
      rw [one_mul]
      exact Nat.mod_mod_of_dvd _ (dvd_refl W)
    rw [hone]

end Mm

namespace Mm

set_option maxRecDepth 4000000
set_option maxHeartbeats 4000000

/-- Claim C2 (counterexample): the claim states that whenever the block at p is
allocated and size(p) is at least req = block_size(n), resize(p, n) splits in
place and returns p itself.  In heapF the block b = 4424 is allocated with
size 104 and req = block_size 50 = 56 is at most 104, yet realloc returns the
predecessor 4320, not 4424: the code tries the predecessor-merge path before
the shrink-in-place path. -/
theorem C2_counterexample :
    GET_ALLOC heapF (HDRP 4424) = 1 ∧
    block_size 50 ≤ GET_SIZE heapF (HDRP 4424) ∧
    (realloc FUEL heapF 4424 50).2 = 4320 ∧
    (realloc FUEL heapF 4424 50).2 ≠ 4424 := by
  refine ⟨by decide, by decide, by decide, by decide⟩

/-- Claim C2 (amended): resize(p, n) splits in place and returns p itself when
size(p) is at least req = block_size(n), provided additionally that the
predecessor of p is allocated (prev_alloc flag nonzero); with a free
predecessor the code first tries to merge into the predecessor. -/
theorem C2_resize_in_place_amended (fuel : Nat) (st : MMState) (p n : Nat)
    (h1 : p ≠ 0) (h2 : n ≠ 0) (h3 : GET_PREV_ALLOC st (HDRP p) ≠ 0)
    (h4 : block_size n ≤ GET_SIZE st (HDRP p)) :
    realloc fuel st p n = (split_block fuel st p (block_size n), p) :=
  realloc_inplace fuel st p n h1 h2 h3 h4

/-- Claim C2 (witness): the amended theorem applied to the concrete heap heapA
in which block 4320 is allocated, has an allocated predecessor (the prologue),
and has size 104 at least block_size 50 = 56. -/
theorem C2_witness :
    (4320 : Nat) ≠ 0 ∧ (50 : Nat) ≠ 0 ∧ GET_PREV_ALLOC heapA (HDRP 4320) ≠ 0 ∧
    block_size 50 ≤ GET_SIZE heapA (HDRP 4320) ∧
    realloc FUEL heapA 4320 50 = (split_block FUEL heapA 4320 (block_size 50), 4320) :=
  ⟨by decide, by decide, by decide, by decide,
   C2_resize_in_place_amended FUEL heapA 4320 50 (by decide) (by decide) (by decide) (by decide)⟩

/-- Claim C5 (counterexample): the claim states the class of s is the least i
with 2^(i+5) at least s clamped to CLASSES-1 = 25.  At s = 2^30 the least such
i is 25 and the claimed clamp leaves 25, but get_class returns 24: the loop
bound i < MAX_LEVEL together with the BIAS subtraction clamps at 24. -/
theorem C5_counterexample :
    get_class (2 ^ 30) = 24 ∧ min (CLASSES - 1) (specClass (2 ^ 30)) = 25 ∧
    get_class (2 ^ 30) ≠ min (CLASSES - 1) (specClass (2 ^ 30)) := by
  refine ⟨by decide, ?_, ?_⟩
  · rw [specClass_pow30]
    decide
  · rw [specClass_pow30]
    decide

/-- Claim C5 (amended): for every size s, the class used by insert, remove and
find_fit is the least i with 2^(i+5) at least s, clamped to CLASSES-2 = 24. -/
theorem C5_class_clamp_amended (s : Nat) : get_class s = min (CLASSES - 2) (specClass s) :=
  get_class_eq s

/-- Claim C6 (counterexample): the claim states the computed block size equals
align8(max(n,5)+4) and is at least 16.  At n = 2^64-11 the size_t computation
wraps: the code computes 0 while align8(max(n,5)+4) is 2^64, and 0 < 16. -/
theorem C6_counterexample :
    block_size (2 ^ 64 - 11) = 0 ∧ align8Spec (max (2 ^ 64 - 11) 5 + 4) = 2 ^ 64 ∧
    block_size (2 ^ 64 - 11) ≠ align8Spec (max (2 ^ 64 - 11) 5 + 4) ∧
    ¬ 16 ≤ block_size (2 ^ 64 - 11) := by
  refine ⟨by decide, by decide, by decide, by decide⟩

/-- Claim C6 (amended): for every request of n payload bytes (n below 2^64),
the block size computed by allocate and resize equals align8(max(n,5)+4)
reduced modulo 2^64; for n at most 2^64-12 no wrap occurs and the block size
equals align8(max(n,5)+4) exactly, is at least 16, is a multiple of 8, and is
monotone in n on that range. -/
theorem C6_block_size_amended :
    (∀ n, n < W → block_size n = align8Spec (max n 5 + 4) % W) ∧
    (∀ n, n ≤ W - 12 →
      block_size n = align8Spec (max n 5 + 4) ∧ 16 ≤ block_size n ∧ block_size n % 8 = 0) ∧
    (∀ m n, m ≤ n → n ≤ W - 12 → block_size m ≤ block_size n) :=
  ⟨block_size_mod,
   fun n h => ⟨block_size_eq n h, block_size_ge n h, block_size_mul8 n h⟩,
   block_size_mono⟩

/-- Claim C6 (witness): the amended theorem applied at n = 100 and m = 3;
block_size 100 = 104 and block_size 3 = 16. -/
theorem C6_witness :
    (100 : Nat) < W ∧ (100 : Nat) ≤ W - 12 ∧ (3 : Nat) ≤ 100 ∧
    block_size 100 = align8Spec (max 100 5 + 4) % W ∧
    (block_size 100 = align8Spec (max 100 5 + 4) ∧ 16 ≤ block_size 100 ∧
      block_size 100 % 8 = 0) ∧
    block_size 3 ≤ block_size 100 :=
  ⟨by decide, by decide, by decide,
   C6_block_size_amended.1 100 (by decide),
   C6_block_size_amended.2.1 100 (by decide),
   C6_block_size_amended.2.2 3 100 (by decide) (by decide)⟩

/-- Claim C7 (code bug): on the heap heap7 whose sbrk limit is exhausted,
zero-alloc(1, 50) returns the failure sentinel, but not without any other
effect: malloc alone fails cleanly (no fault), while calloc passes the null
pointer to memset, which stores 50 bytes through address 0, outside the heap
(undefined behaviour, recorded by the fault flag of the model). -/
theorem C7_calloc_null_memset :
    (mm_init initMem 1728).2 = 0 ∧
    heap7.fault = false ∧
    (malloc FUEL heap7 50).2 = 0 ∧
    (malloc FUEL heap7 50).1.fault = false ∧
    (calloc FUEL heap7 1 50).2 = 0 ∧
    (calloc FUEL heap7 1 50).1.fault = true := by
  refine ⟨by decide, by decide, by decide, by decide, by decide, by decide⟩

/-- Claim C8: release never fails; releasing the failure sentinel is a no-op,
releasing an already free block is a no-op, and otherwise the block is marked
free with its current size, coalesced with free neighbors, and the coalesced
result is inserted on the free list. -/
theorem C8_release_total :
    (∀ fuel st, free fuel st 0 = st) ∧
    (∀ fuel st p, p ≠ 0 → GET_ALLOC st (HDRP p) = 0 → free fuel st p = st) ∧
    (∀ fuel st p, p ≠ 0 → GET_ALLOC st (HDRP p) ≠ 0 →
      free fuel st p =
        add_to_free_list (coalesce fuel (set_block st p (GET_SIZE st (HDRP p)) 0) p).1
          (coalesce fuel (set_block st p (GET_SIZE st (HDRP p)) 0) p).2) := by
  refine ⟨fun fuel st => rfl, ?_, ?_⟩
  · intro fuel st p h1 h2
    unfold free
    rw [if_neg h1, if_pos h2]
  · intro fuel st p h1 h2
    unfold free
    rw [if_neg h1, if_neg h2]

/-- Claim C8 (witness): the three cases applied to concrete heaps: the
sentinel on heap0, the already-free block 4320 of heapF, and the allocated
block 4320 of heapAB. -/
theorem C8_witness :
    free FUEL heap0 0 = heap0 ∧
    ((4320 : Nat) ≠ 0 ∧ GET_ALLOC heapF (HDRP 4320) = 0 ∧ free FUEL heapF 4320 = heapF) ∧
    ((4320 : Nat) ≠ 0 ∧ GET_ALLOC heapAB (HDRP 4320) ≠ 0 ∧
      free FUEL heapAB 4320 =
        add_to_free_list
          (coalesce FUEL (set_block heapAB 4320 (GET_SIZE heapAB (HDRP 4320)) 0) 4320).1
          (coalesce FUEL (set_block heapAB 4320 (GET_SIZE heapAB (HDRP 4320)) 0) 4320).2) :=
  ⟨C8_release_total.1 FUEL heap0,
   ⟨by decide, by decide, C8_release_total.2.1 FUEL heapF 4320 (by decide) (by decide)⟩,
   ⟨by decide, by decide, C8_release_total.2.2 FUEL heapAB 4320 (by decide) (by decide)⟩⟩

/-- Claim C10: for nonzero k and n, zero-alloc computes its allocation size as
the product k times n reduced modulo 2^64 with no overflow check, so it
behaves exactly like a zero-alloc of the reduced product; concretely, with
k = 2^63+1 and n = 2 the true product 2^64+2 exceeds 2^64, yet on heap0 the
call succeeds, allocates a 16-byte block (a 2-byte request), zeroes exactly the
2 bytes 4320 and 4321, and leaves byte 4328 at its initial value 170. -/
theorem C10_calloc_wraps :
    (∀ fuel st k n, 0 < k → 0 < n → calloc fuel st k n = calloc fuel st 1 (k * n % W)) ∧
    (W < (2 ^ 63 + 1) * 2 ∧ (2 ^ 63 + 1) * 2 % W = 2 ∧
     (calloc FUEL heap0 (2 ^ 63 + 1) 2).2 = 4320 ∧
     GET_SIZE (calloc FUEL heap0 (2 ^ 63 + 1) 2).1 (HDRP 4320) = 16 ∧
     (calloc FUEL heap0 (2 ^ 63 + 1) 2).1.mem 4320 = 0 ∧
     (calloc FUEL heap0 (2 ^ 63 + 1) 2).1.mem 4321 = 0 ∧
     (calloc FUEL heap0 (2 ^ 63 + 1) 2).1.mem 4328 = 170 ∧
     (calloc FUEL heap0 (2 ^ 63 + 1) 2).1.fault = false) :=
  ⟨calloc_mod,
   ⟨by decide, by decide, by decide, by decide, by decide, by decide, by decide, by decide⟩⟩

/-- Claim C10 (witness): the general part of the theorem applied to heap0 with
k = 2^63+1 and n = 2. -/
theorem C10_witness :
    (0 : Nat) < 2 ^ 63 + 1 ∧ (0 : Nat) < 2 ∧
    calloc FUEL heap0 (2 ^ 63 + 1) 2 = calloc FUEL heap0 1 ((2 ^ 63 + 1) * 2 % W) :=
  ⟨by decide, by decide, C10_calloc_wraps.1 FUEL heap0 (2 ^ 63 + 1) 2 (by decide) (by decide)⟩

end Mm
